import Mathlib

/-!
Verification of `gas-oracle/oracle/gas_price_oracle.go` (mantle gas oracle).

The file shallowly embeds the Go source: fallible calls return `Except GoErr`,
the `stop` channel and the context's `Done` channel are booleans recording
whether they are closed, the three periodic loops are modelled as a step
function on a loop state driven by `select` events, and Go `panic` is an
explicit outcome.  External collaborators (RPC client, contract bindings,
the `gasprices` and `tokenprice` packages) are represented by an `Env`
record holding the result each external call would return.

Machine integers: the Go code uses `*big.Int` and `uint64` values that are
never overflowed by the operations modelled here, so they are embedded as
`Nat`; the float arithmetic of the (spec-modelled) fee algorithm is embedded
as `ℚ`.
-/

namespace Mantle

/-- Errors of the Go source (`errors.New` values at the top of the file,
`fmt.Errorf` wrappings, and generic errors returned by external calls).
`noChainID layer` models `fmt.Errorf("layer-...: %w", errNoChainID)`
with `layer` = 1 or 2. -/
inductive GoErr where
  /-- errInvalidSigningKey -/
  | invalidSigningKey
  /-- errNoChainID wrapped with the layer ("layer-one:" = 1, "layer-two:" = 2) -/
  | noChainID (layer : Nat)
  /-- errNoPrivateKey -/
  | noPrivateKey
  /-- errWrongChainID wrapped with layer, configured and live values -/
  | wrongChainID (layer : Nat) (configured live : Nat)
  /-- "invalid token price client" -/
  | invalidTokenPriceClient
  /-- an error produced by an external call (RPC failure, binding failure, ...);
      the code carries it opaquely, so a numeric tag suffices -/
  | external (code : Nat)
  deriving DecidableEq, Repr

/-- Go runtime panics reachable in this file. -/
inductive GoPanic where
  /-- `close` of an already-closed channel (the runtime error
      "close of closed channel") -/
  | closeOfClosedChannel
  /-- explicit `panic(err)` with the wrapped error -/
  | explicitPanic (e : GoErr)
  deriving DecidableEq, Repr

/-- The `Config` struct, restricted to the fields `gas_price_oracle.go`
reads.  Addresses and chain ids are `Nat`; a private key is identified with
the address `crypto.PubkeyToAddress` derives from it (the derivation itself
is external cryptography and injective for the purposes of the comparison
in `ensure`). -/
structure Config where
  l1ChainID : Option Nat
  l2ChainID : Option Nat
  enableHsm : Bool
  hsmAddress : Nat
  privateKey : Option Nat
  enableL1BaseFee : Bool
  enableDaFee : Bool
  enableL2GasPrice : Bool
  floorPrice : Nat
  targetGasPerSecond : Nat
  maxPercentChangePerEpoch : ℚ
  averageBlockGasLimitPerEpoch : Nat
  epochLengthSeconds : Nat
  l1BaseFeeEpochLengthSeconds : Nat
  daFeeEpochLengthSeconds : Nat
  deriving DecidableEq, Repr

/-- `crypto.PubkeyToAddress(k.PublicKey)`: with keys identified with their
derived address (see `Config`), the derivation is the identity. -/
def pubkeyToAddress (k : Nat) : Nat := k

/-- The signing address the code computes both in `Start` and in `ensure`:
`common.HexToAddress(HsmAddress)` when HSM signing is enabled, otherwise
`crypto.PubkeyToAddress(privateKey.PublicKey)`.  The `none` branch models
the code paths where `privateKey` was already checked non-nil. -/
def signerAddress (cfg : Config) : Nat :=
  if cfg.enableHsm then cfg.hsmAddress
  else pubkeyToAddress (cfg.privateKey.getD 0)

/-- Outcomes each external call of `gas_price_oracle.go` would return:
one field per call site, in source order.  `l2Conn`/`l1Conn` give the
outcome of the `ChainID` query made by `ensureConnection` at each attempt
(`none` = success). -/
structure Env where
  /-- `tokenprice.NewClient` returned non-nil -/
  tokenPricerOk : Bool
  /-- `ethclient.Dial(cfg.layerTwoHttpUrl)` -/
  dialL2 : Except GoErr Unit
  /-- `NewL1Client(cfg.ethereumHttpUrl, tokenPricer)` -/
  newL1Client : Except GoErr Unit
  /-- `bindings.NewBVMEigenDataLayrFee(cfg.daFeeContractAddress, ...)` -/
  newDaFeeBinding : Except GoErr Unit
  /-- per-attempt outcome of `l2Client.ChainID` inside `ensureConnection(l2Client)` -/
  l2Conn : Nat → Option GoErr
  /-- per-attempt outcome of `l1Client.ChainID` inside `ensureConnection(l1Client)` -/
  l1Conn : Nat → Option GoErr
  /-- `bindings.NewBVMGasPriceOracle(address, l2Client)` -/
  newGpoBinding : Except GoErr Unit
  /-- `contract.GasPrice(...)` in `NewGasPriceOracle` -/
  contractGasPrice : Except GoErr Nat
  /-- `gasprices.NewGasPricer(...)` -/
  newGasPricer : Except GoErr Unit
  /-- `l2Client.ChainID(context.Background())` -/
  l2ChainID : Except GoErr Nat
  /-- `l1Client.ChainID(context.Background())` -/
  l1ChainID : Except GoErr Nat
  /-- `l2Client.HeaderByNumber(...204, nil)` giving `tip.Number` -/
  l2TipNumber : Except GoErr Nat
  /-- `wrapUpdateL2GasPriceFn(l2Client, cfg)` -/
  wrapUpdateL2GasPrice : Except GoErr Unit
  /-- `gasprices.NewGasPriceUpdater(...)` -/
  newGasPriceUpdater : Except GoErr Unit
  /-- `g.contract.Owner(...)` inside `ensure` -/
  contractOwner : Except GoErr Nat
  /-- `wrapUpdateBaseFee(g.l1Backend, g.l2Backend, g.config)` in `BaseFeeLoop` -/
  wrapUpdateBaseFee : Except GoErr Unit
  /-- `wrapUpdateDaFee(g.daBackend, g.l2Backend, g.config)` in `DaFeeLoop` -/
  wrapUpdateDaFee : Except GoErr Unit
  /-- `contract.GasPrice(...)` as read inside `Start` -/
  startGasPrice : Except GoErr Nat

/-- The `GasPriceOracle` struct.  `stopClosed` is true once the `stop`
channel has been closed; `ctxDone` is true once the context's `Done`
channel is closed (the constructor installs `context.Background()`, whose
`Done` channel is never closed and which has no cancel function, so no
operation of the program ever sets `ctxDone`). -/
structure GasPriceOracleM where
  l1ChainID : Nat
  l2ChainID : Nat
  stopClosed : Bool
  ctxDone : Bool
  /-- `daBackend`: the binding returned by `NewBVMEigenDataLayrFee`;
      `none` when that constructor failed (its error is discarded at the
      call site, so the field may hold an invalid binding) -/
  daBackend : Option Unit
  config : Config
  deriving DecidableEq, Repr

namespace GasPriceOracleM

/-- `func (g *GasPriceOracle) Stop() { close(g.stop) }`.
Go's `close` panics on an already-closed channel. -/
def Stop (g : GasPriceOracleM) : Except GoPanic GasPriceOracleM :=
  if g.stopClosed then .error .closeOfClosedChannel
  else .ok { g with stopClosed := true }

/-- `func (g *GasPriceOracle) Wait() { <-g.stop }`: the receive returns
exactly when the `stop` channel is closed (nothing ever sends on it). -/
def waitReturns (g : GasPriceOracleM) : Bool := g.stopClosed

end GasPriceOracleM

/-- The three periodic tasks started by `Start`: `Loop` (L2 gas price),
`BaseFeeLoop` (L1 base fee) and `DaFeeLoop` (DA fee).  Their `for`/`select`
bodies are structurally identical, so one step function models all three,
indexed by the task. -/
inductive OracleTask where
  | l2GasPrice
  | l1BaseFee
  | daFee
  deriving DecidableEq, Repr

/-- State observed by one loop iteration: the shared oracle plus counters
for the observable effects of the iterations run so far. -/
structure LoopState where
  oracle : GasPriceOracleM
  /-- number of `<-timer.C` branches taken (ticks processed) -/
  ticks : Nat
  /-- number of per-tick errors reduced to a `log.Error` call -/
  errorsLogged : Nat
  deriving DecidableEq, Repr

/-- One firing of the `select` inside `Loop`/`BaseFeeLoop`/`DaFeeLoop`:
either the task's timer fired (`tick updateErr`, with `updateErr` true when
the update function returned an error), or the context's `Done` channel was
ready. -/
inductive LoopEvent where
  | tick (updateErr : Bool)
  | ctxDone
  deriving DecidableEq, Repr

/-- Whether a `select` branch can fire in a state: the ticker keeps firing
as long as the loop runs (the body contains no `break` or `return`, so the
deferred `timer.Stop()` never executes), and the `<-g.ctx.Done()` branch is
ready exactly when the context is done. -/
def eventEnabled (s : LoopState) : LoopEvent → Bool
  | .tick _ => true
  | .ctxDone => s.oracle.ctxDone

/-- Result of one loop iteration: the `for` loop either continues with the
next `select` (there is no exit path in the body) or the goroutine panics. -/
inductive StepResult where
  | continued (s : LoopState)
  | panicked (p : GoPanic)
  deriving DecidableEq, Repr

/-- `ensureConnection` (lines 365-381): query `client.ChainID` once per
1-second ticker tick; `break` (return nil) on the first success; on failure
increment `retries` and return the error once `retries > 90`.  `q attempt`
is the outcome of the query at the given 0-based attempt; `retries` is the
counter, incremented before the cap test exactly as in the source. -/
def ensureConnectionGo (q : Nat → Option GoErr) (attempt retries : Nat) :
    Except GoErr Unit :=
  match q attempt with
  | none => .ok ()
  | some e =>
      if retries + 1 > 90 then .error e
      else ensureConnectionGo q (attempt + 1) (retries + 1)
  termination_by 90 - retries
  decreasing_by omega

/-- `ensureConnection(client)`: the loop starts at the first attempt with
`retries = 0`. -/
def ensureConnection (q : Nat → Option GoErr) : Except GoErr Unit :=
  ensureConnectionGo q 0 0

/-- `func (g *GasPriceOracle) ensure() error` (lines 108-126): query the
contract owner, compute the signing address, and return
`errInvalidSigningKey` when they differ. -/
def ensure (env : Env) (g : Mantle.GasPriceOracleM) : Except GoErr Unit :=
  match env.contractOwner with
  | .error e => .error e
  | .ok owner =>
      let address := signerAddress g.config
      if address ≠ owner then .error .invalidSigningKey
      else .ok ()

/-- Which of the three goroutines `Start` launched. -/
structure LaunchedTasks where
  baseFeeLoop : Bool
  daFeeLoop : Bool
  l2GasPriceLoop : Bool
  deriving DecidableEq, Repr

/-- `func (g *GasPriceOracle) Start() error` (lines 53-95): check the two
chain ids are configured, check the private key when HSM signing is off,
read the current gas price for the metrics gauge, then launch one goroutine
per enabled task.  `Start` performs no ownership check. -/
def Start (env : Env) (g : Mantle.GasPriceOracleM) :
    Except GoErr LaunchedTasks :=
  match g.config.l1ChainID with
  | none => .error (.noChainID 1)
  | some _ =>
  match g.config.l2ChainID with
  | none => .error (.noChainID 2)
  | some _ =>
  if ¬g.config.enableHsm ∧ g.config.privateKey = none then
    .error .noPrivateKey
  else
    match env.startGasPrice with
    | .error e => .error e
    | .ok _ =>
        .ok { baseFeeLoop := g.config.enableL1BaseFee
              daFeeLoop := g.config.enableDaFee
              l2GasPriceLoop := g.config.enableL2GasPrice }

/-- `NewGasPriceOracle(cfg)` (lines 215-362), step by step in source order:
token-price client, L2 dial, L1 client, DA-fee binding (whose error is
bound to `err` but never checked: the next statement shadows it),
connectivity checks, gas-price-oracle binding, current price read,
`NewGasPricer`, chain-id queries, chain-id checks (a configured id must
match the live one, an absent one adopts the live value), private-key
check, tip header, update-function construction, `NewGasPriceUpdater`,
struct construction with `context.Background()` and a fresh `stop`
channel, and finally `ensure()`. -/
def NewGasPriceOracle (env : Env) (cfg : Config) :
    Except GoErr Mantle.GasPriceOracleM :=
  if ¬env.tokenPricerOk then .error .invalidTokenPriceClient
  else
  match env.dialL2 with
  | .error e => .error e
  | .ok _ =>
  match env.newL1Client with
  | .error e => .error e
  | .ok _ =>
  -- daFeeClient, err := bindings.NewBVMEigenDataLayrFee(...): err discarded
  let daFeeClient : Option Unit := env.newDaFeeBinding.toOption
  match ensureConnection env.l2Conn with
  | .error e => .error e
  | .ok _ =>
  match ensureConnection env.l1Conn with
  | .error e => .error e
  | .ok _ =>
  match env.newGpoBinding with
  | .error e => .error e
  | .ok _ =>
  match env.contractGasPrice with
  | .error e => .error e
  | .ok _currentPrice =>
  match env.newGasPricer with
  | .error e => .error e
  | .ok _ =>
  match env.l2ChainID with
  | .error e => .error e
  | .ok l2ChainID =>
  match env.l1ChainID with
  | .error e => .error e
  | .ok l1ChainID =>
  match cfg.l2ChainID with
  | some configured =>
      if configured ≠ l2ChainID then
        .error (.wrongChainID 2 configured l2ChainID)
      else
        newGasPriceOracleRest env cfg daFeeClient l1ChainID l2ChainID
  | none =>
      newGasPriceOracleRest env { cfg with l2ChainID := some l2ChainID }
        daFeeClient l1ChainID l2ChainID
where
  /-- continuation from the L1 chain-id check (line 293) on: the `cfg`
  argument already carries the adopted L2 chain id. -/
  newGasPriceOracleRest (env : Env) (cfg : Config) (daFeeClient : Option Unit)
      (l1ChainID l2ChainID : Nat) : Except GoErr Mantle.GasPriceOracleM :=
    match cfg.l1ChainID with
    | some configured =>
        if configured ≠ l1ChainID then
          .error (.wrongChainID 1 configured l1ChainID)
        else
          newGasPriceOracleFinish env cfg daFeeClient l1ChainID l2ChainID
    | none =>
        newGasPriceOracleFinish env { cfg with l1ChainID := some l1ChainID }
          daFeeClient l1ChainID l2ChainID
  /-- continuation from the private-key check (line 302) on. -/
  newGasPriceOracleFinish (env : Env) (cfg : Config) (daFeeClient : Option Unit)
      (l1ChainID l2ChainID : Nat) : Except GoErr Mantle.GasPriceOracleM :=
    if ¬cfg.enableHsm ∧ cfg.privateKey = none then .error .noPrivateKey
    else
    match env.l2TipNumber with
    | .error e => .error e
    | .ok _epochStartBlockNumber =>
    match env.wrapUpdateL2GasPrice with
    | .error e => .error e
    | .ok _ =>
    match env.newGasPriceUpdater with
    | .error e => .error e
    | .ok _ =>
    let gpo : Mantle.GasPriceOracleM :=
      { l1ChainID := l1ChainID
        l2ChainID := l2ChainID
        stopClosed := false
        ctxDone := false
        daBackend := daFeeClient
        config := cfg }
    match ensure env gpo with
    | .error e => .error e
    | .ok _ => .ok gpo

/-- The outcome of entering `BaseFeeLoop`/`DaFeeLoop`: building the update
function either panics the goroutine (which, unrecovered, aborts the whole
process) or the loop starts ticking. -/
inductive LoopLaunch where
  | panicked (p : GoPanic)
  | running
  deriving DecidableEq, Repr

/-- `BaseFeeLoop` entry (lines 147-154): `wrapUpdateBaseFee` failure is
`panic(err)`, not a log. -/
def BaseFeeLoopLaunch (env : Env) : LoopLaunch :=
  match env.wrapUpdateBaseFee with
  | .error e => .panicked (.explicitPanic e)
  | .ok _ => .running

/-- `DaFeeLoop` entry (lines 167-174): `wrapUpdateDaFee` failure is
`panic(err)`, not a log. -/
def DaFeeLoopLaunch (env : Env) : LoopLaunch :=
  match env.wrapUpdateDaFee with
  | .error e => .panicked (.explicitPanic e)
  | .ok _ => .running

/-- The common `for { select { ... } }` body of `Loop` (lines 133-144),
`BaseFeeLoop` (lines 155-164) and `DaFeeLoop` (lines 176-186): on a timer
fire the task's update function runs and any error is logged
(`log.Error(...)`) after which the loop continues; on `<-g.ctx.Done()` the
branch calls `g.Stop()` and then the loop continues (none of the three
branches returns or breaks). -/
def loopStep (_t : OracleTask) (s : LoopState) : LoopEvent → StepResult
  | .tick updateErr =>
      .continued { s with
        ticks := s.ticks + 1
        errorsLogged := s.errorsLogged + (if updateErr then 1 else 0) }
  | .ctxDone =>
      match s.oracle.Stop with
      | .error p => .panicked p
      | .ok g => .continued { s with oracle := g }

namespace GasPrices

/-- Modelled from the spec: the `gasprices` package (the `GasPricer` built
by `gasprices.NewGasPricer` at lines 262-270) is not part of the sources
under verification, so its per-tick L2 gas-price computation is taken from
the specification's FeeController steps 3-4: the target gas for the window
is `averageBlockGasLimitPerEpoch × numberOfBlocksInWindow` and the load
ratio is `actualGasUsed / targetGasForWindow`, with a window of zero blocks
treated as neutral load (ratio 1, no change) instead of a division fault. -/
def loadRatio (avgBlockGasLimit numBlocks gasUsed : ℚ) : ℚ :=
  if numBlocks = 0 then 1 else gasUsed / (avgBlockGasLimit * numBlocks)

/-- Modelled from the spec: clamp the magnitude of a percent change to the
configured bound (FeeController step 5). -/
def clampMagnitude (x bound : ℚ) : ℚ := max (-bound) (min bound x)

/-- Modelled from the spec: the percent change the controller applies in an
epoch — the raw change derived from the load ratio relative to 1.0, with
its magnitude clamped to `maxPercentChangePerEpoch` (FeeController step 5). -/
def appliedPercentChange (avgBlockGasLimit numBlocks gasUsed maxChange : ℚ) : ℚ :=
  clampMagnitude (loadRatio avgBlockGasLimit numBlocks gasUsed - 1) maxChange

/-- Modelled from the spec: the floor price converted through the live
price-feed rate into chain-native units (FeeController step 7). -/
def convertedFloor (floorPrice rate : ℚ) : ℚ := floorPrice * rate

/-- Modelled from the spec: one epoch of the L2 gas-price controller
(FeeController steps 3-7): apply the clamped percent change to the current
price and take the maximum with the converted floor. -/
def calcNextEpochGasPrice (current floorPrice rate avgBlockGasLimit
    numBlocks gasUsed maxChange : ℚ) : ℚ :=
  max (current * (1 + appliedPercentChange avgBlockGasLimit numBlocks gasUsed maxChange))
    (convertedFloor floorPrice rate)

end GasPrices

/-! Concrete fixtures used by witnesses and counterexamples. -/

/-- A concrete configuration (chain ids unconfigured, local key whose
derived address is 5, all three tasks enabled). -/
def cfg0 : Config :=
  { l1ChainID := none
    l2ChainID := none
    enableHsm := false
    hsmAddress := 0
    privateKey := some 5
    enableL1BaseFee := true
    enableDaFee := true
    enableL2GasPrice := true
    floorPrice := 1
    targetGasPerSecond := 10
    maxPercentChangePerEpoch := 1/10
    averageBlockGasLimitPerEpoch := 100
    epochLengthSeconds := 10
    l1BaseFeeEpochLengthSeconds := 10
    daFeeEpochLengthSeconds := 10 }

/-- A concrete environment in which every external call succeeds and the
contract owner equals the configured key's address. -/
def env0 : Env :=
  { tokenPricerOk := true
    dialL2 := .ok ()
    newL1Client := .ok ()
    newDaFeeBinding := .ok ()
    l2Conn := fun _ => none
    l1Conn := fun _ => none
    newGpoBinding := .ok ()
    contractGasPrice := .ok 1000
    newGasPricer := .ok ()
    l2ChainID := .ok 5003
    l1ChainID := .ok 1
    l2TipNumber := .ok 7
    wrapUpdateL2GasPrice := .ok ()
    newGasPriceUpdater := .ok ()
    contractOwner := .ok 5
    wrapUpdateBaseFee := .ok ()
    wrapUpdateDaFee := .ok ()
    startGasPrice := .ok 1000 }

/-- `env0` with both update-function constructions failing. -/
def envBadWraps : Env :=
  { env0 with
      wrapUpdateBaseFee := .error (.external 7)
      wrapUpdateDaFee := .error (.external 8) }

/-- `env0` with an on-chain contract owner (99) different from every
signing address used in the fixtures. -/
def envOwner99 : Env := { env0 with contractOwner := .ok 99 }

/-- `env0` with a failing DA-fee contract-binding constructor. -/
def envBadDa : Env := { env0 with newDaFeeBinding := .error (.external 3) }

/-- `cfg0` with both chain ids configured to the live values of `env0`. -/
def cfgConfigured : Config :=
  { cfg0 with l1ChainID := some 1, l2ChainID := some 5003 }

/-- The oracle the constructor builds from `cfg0` in `env0` (fresh `stop`
channel, `context.Background()`): both channels open. -/
def g0 : GasPriceOracleM :=
  { l1ChainID := 1
    l2ChainID := 5003
    stopClosed := false
    ctxDone := false
    daBackend := some ()
    config := { cfg0 with l1ChainID := some 1, l2ChainID := some 5003 } }

/-!  Theorems settling the claims. -/

/-- Claim C1: for every epoch the magnitude of the percent change the L2
gas-price controller applies is at most the configured
`maxPercentChangePerEpoch`; and in the scenario with current price 1000,
`averageBlockGasLimitPerEpoch` 100, 10 blocks in the window, gas used 2000
and a 10% bound (floor not binding), the new price is the clamped 1100,
not the unclamped proportional 2000. -/
theorem percent_change_clamped (avgBlockGasLimit numBlocks gasUsed m : ℚ)
    (hm : 0 ≤ m) :
    |GasPrices.appliedPercentChange avgBlockGasLimit numBlocks gasUsed m| ≤ m ∧
    GasPrices.calcNextEpochGasPrice 1000 0 1 100 10 2000 (1/10) = 1100 := by
  constructor
  · rw [abs_le]
    constructor
    · exact le_max_left _ _
    · exact max_le (by linarith) (min_le_left _ _)
  · norm_num [GasPrices.calcNextEpochGasPrice, GasPrices.appliedPercentChange,
      GasPrices.clampMagnitude, GasPrices.loadRatio, GasPrices.convertedFloor]

/-- Witness for `percent_change_clamped` at the claim's own scenario. -/
theorem percent_change_clamped_witness :
    (0 : ℚ) ≤ 1/10 ∧
    (|GasPrices.appliedPercentChange 100 10 2000 (1/10)| ≤ 1/10 ∧
      GasPrices.calcNextEpochGasPrice 1000 0 1 100 10 2000 (1/10) = 1100) :=
  ⟨by norm_num, percent_change_clamped 100 10 2000 (1/10) (by norm_num)⟩

/-- Claim C5: the result of every L2 gas-price controller tick is at least
the floor price converted through that tick's live price-feed rate. -/
theorem price_at_least_converted_floor (current floorPrice rate
    avgBlockGasLimit numBlocks gasUsed maxChange : ℚ) :
    GasPrices.convertedFloor floorPrice rate ≤
      GasPrices.calcNextEpochGasPrice current floorPrice rate
        avgBlockGasLimit numBlocks gasUsed maxChange :=
  le_max_right _ _

/-- Claim C8: on every timer fire of any of the three tasks, an error from
the update step is reduced to one log entry and the task continues to its
next tick with the shared oracle state untouched — the iteration never
panics, never exits the loop, and never mutates anything a sibling task or
the scheduler observes. -/
theorem tick_error_logged_and_loop_continues (t : OracleTask) (s : LoopState) :
    ∃ s₂, loopStep t s (.tick true) = .continued s₂ ∧
      s₂.errorsLogged = s.errorsLogged + 1 ∧
      s₂.ticks = s.ticks + 1 ∧
      s₂.oracle = s.oracle :=
  ⟨_, rfl, by simp, rfl, rfl⟩

/-- Claim C9: `Stop` is not idempotent — on an oracle whose `stop` channel
is still open, `Stop` succeeds and closes it, a second `Stop` panics with
"close of closed channel", and the loops' `<-g.ctx.Done()` branch, which
calls `g.Stop()` and then continues the loop, reaches the same panic on
the next iteration in which that branch fires. -/
theorem stop_not_idempotent (g : GasPriceOracleM) (t : OracleTask)
    (n m : Nat) (h : g.stopClosed = false) :
    GasPriceOracleM.Stop g = .ok { g with stopClosed := true } ∧
    GasPriceOracleM.Stop { g with stopClosed := true } =
      .error .closeOfClosedChannel ∧
    loopStep t ⟨g, n, m⟩ .ctxDone =
      .continued ⟨{ g with stopClosed := true }, n, m⟩ ∧
    loopStep t ⟨{ g with stopClosed := true }, n, m⟩ .ctxDone =
      .panicked .closeOfClosedChannel := by
  refine ⟨?_, ?_, ?_, ?_⟩ <;>
    simp [GasPriceOracleM.Stop, loopStep, h]

/-- Witness for `stop_not_idempotent` on the concrete fresh oracle `g0`. -/
theorem stop_not_idempotent_witness :
    g0.stopClosed = false ∧
    (GasPriceOracleM.Stop g0 = .ok { g0 with stopClosed := true } ∧
     GasPriceOracleM.Stop { g0 with stopClosed := true } =
       .error .closeOfClosedChannel ∧
     loopStep .l2GasPrice ⟨g0, 0, 0⟩ .ctxDone =
       .continued ⟨{ g0 with stopClosed := true }, 0, 0⟩ ∧
     loopStep .l2GasPrice ⟨{ g0 with stopClosed := true }, 0, 0⟩ .ctxDone =
       .panicked .closeOfClosedChannel) :=
  ⟨rfl, stop_not_idempotent g0 .l2GasPrice 0 0 rfl⟩

/-- Claim C2 (divergence witness): on the concrete oracle `g0` built by the
constructor (context is `context.Background()`, so its `Done` channel is
never closed), `Stop()` closes the `stop` channel and `Wait()` returns, but
the loops select on `g.ctx.Done()`, not on `g.stop`: the cancellation
branch stays disabled, the timer branch stays enabled, and a loop iteration
after `Stop()` still processes a tick — the tasks do not stop ticking. -/
theorem stop_leaves_loops_ticking :
    GasPriceOracleM.Stop g0 = .ok { g0 with stopClosed := true } ∧
    GasPriceOracleM.waitReturns { g0 with stopClosed := true } = true ∧
    ({ g0 with stopClosed := true } : GasPriceOracleM).ctxDone = false ∧
    eventEnabled ⟨{ g0 with stopClosed := true }, 0, 0⟩ .ctxDone = false ∧
    eventEnabled ⟨{ g0 with stopClosed := true }, 0, 0⟩ (.tick false) = true ∧
    loopStep .l2GasPrice ⟨{ g0 with stopClosed := true }, 0, 0⟩ (.tick false) =
      .continued ⟨{ g0 with stopClosed := true }, 1, 0⟩ := by
  refine ⟨?_, rfl, rfl, rfl, rfl, ?_⟩ <;>
    simp [GasPriceOracleM.Stop, loopStep, g0]

/-- Claim C7: an error from `wrapUpdateBaseFee` in `BaseFeeLoop`, or from
`wrapUpdateDaFee` in `DaFeeLoop`, is passed to `panic` — the goroutine
panics (aborting the process) instead of logging and continuing. -/
theorem wrap_update_failure_panics (env : Env) (e1 e2 : GoErr)
    (h1 : env.wrapUpdateBaseFee = .error e1)
    (h2 : env.wrapUpdateDaFee = .error e2) :
    BaseFeeLoopLaunch env = .panicked (.explicitPanic e1) ∧
    DaFeeLoopLaunch env = .panicked (.explicitPanic e2) := by
  constructor <;> simp [BaseFeeLoopLaunch, DaFeeLoopLaunch, h1, h2]

/-- Witness for `wrap_update_failure_panics` on a concrete environment in
which both update-function constructions fail. -/
theorem wrap_update_failure_panics_witness :
    (envBadWraps.wrapUpdateBaseFee = .error (.external 7)) ∧
    (envBadWraps.wrapUpdateDaFee = .error (.external 8)) ∧
    (BaseFeeLoopLaunch envBadWraps = .panicked (.explicitPanic (.external 7)) ∧
     DaFeeLoopLaunch envBadWraps = .panicked (.explicitPanic (.external 8))) :=
  ⟨rfl, rfl, wrap_update_failure_panics envBadWraps (.external 7) (.external 8)
    rfl rfl⟩

/-- Helper for C4: the connectivity loop succeeds whenever the failures
preceding the first success keep the retries counter at or below the cap. -/
theorem ensureConnectionGo_ok (q : Nat → Option GoErr) :
    ∀ (k a r : Nat), r + k ≤ 90 → (∀ i, i < k → (q (a + i)).isSome) →
      q (a + k) = none → ensureConnectionGo q a r = .ok () := by
  intro k
  induction k with
  | zero =>
      intro a r _ _ hq
      rw [ensureConnectionGo]
      simp only [Nat.add_zero] at hq
      rw [hq]
  | succ k ih =>
      intro a r hr hfail hq
      rw [ensureConnectionGo]
      obtain ⟨e, he⟩ := Option.isSome_iff_exists.mp (hfail 0 (Nat.succ_pos k))
      rw [Nat.add_zero] at he
      have hcap : ¬(r + 1 > 90) := by omega
      rw [he]
      simp only [hcap, if_false]
      exact ih (a + 1) (r + 1) (by omega)
        (fun i hi => by
          have h2 := hfail (i + 1) (by omega)
          rwa [show a + (i + 1) = a + 1 + i by omega] at h2)
        (by rwa [show a + (k + 1) = a + 1 + k by omega] at hq)

/-- Helper for C4: once the retries counter would pass the cap — i.e. after
failures at every attempt while `r` climbs to 90 — the loop returns the
failing query's error. -/
theorem ensureConnectionGo_err (q : Nat → Option GoErr) (e : GoErr) :
    ∀ (d a r : Nat), r + d = 90 → (∀ i, i < d → (q (a + i)).isSome) →
      q (a + d) = some e → ensureConnectionGo q a r = .error e := by
  intro d
  induction d with
  | zero =>
      intro a r hr _ hq
      rw [ensureConnectionGo]
      rw [Nat.add_zero] at hq
      have hcap : r + 1 > 90 := by omega
      rw [hq]
      simp only [hcap, if_true]
  | succ d ih =>
      intro a r hr hfail hq
      rw [ensureConnectionGo]
      obtain ⟨e0, he0⟩ := Option.isSome_iff_exists.mp (hfail 0 (Nat.succ_pos d))
      rw [Nat.add_zero] at he0
      have hcap : ¬(r + 1 > 90) := by omega
      rw [he0]
      simp only [hcap, if_false]
      exact ih (a + 1) (r + 1) (by omega)
        (fun i hi => by
          have h2 := hfail (i + 1) (by omega)
          rwa [show a + (i + 1) = a + 1 + i by omega] at h2)
        (by rwa [show a + (d + 1) = a + 1 + d by omega] at hq)

/-- Claim C4: the startup connectivity check succeeds on the first
successful chain-id query, tolerating up to 90 failed attempts before it
(`q` fails at every attempt before `k ≤ 90` and succeeds at `k`), and it
returns a connection error precisely when the retry cap is exhausted: a
run (`q2`) whose first 91 attempts all fail returns the error of the
91st attempt. -/
theorem ensureConnection_retry_semantics (q q2 : Nat → Option GoErr)
    (k : Nat) (e : GoErr)
    (hk : k ≤ 90)
    (hfail : ∀ i, i < k → (q i).isSome)
    (hsucc : q k = none)
    (hfail2 : ∀ i, i < 90 → (q2 i).isSome)
    (h90 : q2 90 = some e) :
    ensureConnection q = .ok () ∧ ensureConnection q2 = .error e := by
  constructor
  · exact ensureConnectionGo_ok q k 0 0 (by omega)
      (fun i hi => by simpa using hfail i hi) (by simpa using hsucc)
  · exact ensureConnectionGo_err q2 e 90 0 0 (by omega)
      (fun i hi => by simpa using hfail2 i hi) (by simpa using h90)

/-- Witness for `ensureConnection_retry_semantics`: three failures then a
success on one endpoint, permanent failure on the other. -/
theorem ensureConnection_retry_semantics_witness :
    (3 ≤ 90 ∧
      (∀ i, i < 3 → (((fun j => if j < 3 then some (GoErr.external 1) else none)
        : Nat → Option GoErr) i).isSome) ∧
      ((fun j => if j < 3 then some (GoErr.external 1) else none) 3
        = (none : Option GoErr)) ∧
      (∀ i, i < 90 → (((fun _ => some (GoErr.external 2)) : Nat → Option GoErr)
        i).isSome) ∧
      ((fun _ => some (GoErr.external 2)) 90 = some (GoErr.external 2))) ∧
    (ensureConnection (fun j => if j < 3 then some (GoErr.external 1) else none)
        = .ok () ∧
      ensureConnection (fun _ => some (GoErr.external 2))
        = .error (GoErr.external 2)) :=
  ⟨⟨by omega, fun i hi => by simp [hi], by simp, fun i _ => by simp, rfl⟩,
    ensureConnection_retry_semantics
      (fun j => if j < 3 then some (GoErr.external 1) else none)
      (fun _ => some (GoErr.external 2)) 3 (GoErr.external 2)
      (by omega) (fun i hi => by simp [hi]) (by simp)
      (fun i _ => by simp) rfl⟩

/-- Claim C3 (counterexample): `Start` itself performs no ownership check.
On the concrete oracle `g0` (signing address 5) in an environment whose
contract owner is 99, `Start` returns success and launches all three
tasks instead of returning the authorization error the claim requires. -/
theorem start_performs_no_ownership_check :
    signerAddress g0.config = 5 ∧
    envOwner99.contractOwner = .ok 99 ∧
    (5 : Nat) ≠ 99 ∧
    Start envOwner99 g0 =
      .ok { baseFeeLoop := true, daFeeLoop := true, l2GasPriceLoop := true } :=
  ⟨rfl, rfl, by decide, rfl⟩

/-- Claim C3 (amended): when the active signing identity's address does not
match the on-chain contract owner, it is `NewGasPriceOracle` — whose final
step, after building the `GasPriceOracle` struct and before any loop can
start, is the single `ensure()` ownership check — that returns
`errInvalidSigningKey`; no oracle is returned, so `Start` is never reached
and no periodic task is launched. -/
theorem ownership_mismatch_aborts_construction
    (env : Env) (cfg : Config) (p c1 c2 tip k owner : Nat)
    (htok : env.tokenPricerOk = true)
    (hdial : env.dialL2 = .ok ())
    (hl1c : env.newL1Client = .ok ())
    (hconn2 : ensureConnection env.l2Conn = .ok ())
    (hconn1 : ensureConnection env.l1Conn = .ok ())
    (hbind : env.newGpoBinding = .ok ())
    (hprice : env.contractGasPrice = .ok p)
    (hpricer : env.newGasPricer = .ok ())
    (hc2 : env.l2ChainID = .ok c2)
    (hc1 : env.l1ChainID = .ok c1)
    (hcfg2 : cfg.l2ChainID = some c2)
    (hcfg1 : cfg.l1ChainID = some c1)
    (hhsm : cfg.enableHsm = false)
    (hkey : cfg.privateKey = some k)
    (htip : env.l2TipNumber = .ok tip)
    (hwrap : env.wrapUpdateL2GasPrice = .ok ())
    (hupd : env.newGasPriceUpdater = .ok ())
    (howner : env.contractOwner = .ok owner)
    (hmismatch : pubkeyToAddress k ≠ owner) :
    NewGasPriceOracle env cfg = .error .invalidSigningKey := by
  simp [NewGasPriceOracle, NewGasPriceOracle.newGasPriceOracleRest,
    NewGasPriceOracle.newGasPriceOracleFinish, ensure, signerAddress,
    htok, hdial, hl1c, hconn2, hconn1, hbind, hprice, hpricer, hc2, hc1,
    hcfg2, hcfg1, hhsm, hkey, htip, hwrap, hupd, howner, hmismatch]

/-- Witness for `ownership_mismatch_aborts_construction`: the configured
key derives address 5 while the contract owner is 99. -/
theorem ownership_mismatch_aborts_construction_witness :
    pubkeyToAddress 5 ≠ 99 ∧
    NewGasPriceOracle envOwner99 cfgConfigured = .error .invalidSigningKey :=
  ⟨by decide,
    ownership_mismatch_aborts_construction envOwner99 cfgConfigured
      1000 1 5003 7 5 99 rfl rfl rfl
      (by simp [ensureConnection, ensureConnectionGo, envOwner99, env0])
      (by simp [ensureConnection, ensureConnectionGo, envOwner99, env0])
      rfl rfl rfl rfl rfl rfl rfl rfl rfl rfl rfl rfl rfl (by decide)⟩

/-- Claim C6: with both live chain-id queries succeeding (values `c2`,
`c1`) and a base configuration leaving both ids unconfigured, configuring
an id that differs from the live value makes `NewGasPriceOracle` fail with
`errWrongChainID` (for L2 and for L1 alike), while leaving both ids
unconfigured adopts the live values into the configuration and the
constructor succeeds. -/
theorem chain_id_check
    (env : Env) (cfg : Config) (p c1 c2 tip k owner x y : Nat)
    (htok : env.tokenPricerOk = true)
    (hdial : env.dialL2 = .ok ())
    (hl1c : env.newL1Client = .ok ())
    (hconn2 : ensureConnection env.l2Conn = .ok ())
    (hconn1 : ensureConnection env.l1Conn = .ok ())
    (hbind : env.newGpoBinding = .ok ())
    (hprice : env.contractGasPrice = .ok p)
    (hpricer : env.newGasPricer = .ok ())
    (hc2 : env.l2ChainID = .ok c2)
    (hc1 : env.l1ChainID = .ok c1)
    (hcfg2 : cfg.l2ChainID = none)
    (hcfg1 : cfg.l1ChainID = none)
    (hhsm : cfg.enableHsm = false)
    (hkey : cfg.privateKey = some k)
    (htip : env.l2TipNumber = .ok tip)
    (hwrap : env.wrapUpdateL2GasPrice = .ok ())
    (hupd : env.newGasPriceUpdater = .ok ())
    (howner : env.contractOwner = .ok owner)
    (hmatch : pubkeyToAddress k = owner)
    (hx : x ≠ c2)
    (hy : y ≠ c1) :
    NewGasPriceOracle env { cfg with l2ChainID := some x } =
      .error (.wrongChainID 2 x c2) ∧
    NewGasPriceOracle env { cfg with l1ChainID := some y } =
      .error (.wrongChainID 1 y c1) ∧
    ∃ gpo, NewGasPriceOracle env cfg = .ok gpo ∧
      gpo.config.l2ChainID = some c2 ∧ gpo.config.l1ChainID = some c1 := by
  refine ⟨?_, ?_, ?_⟩
  · simp [NewGasPriceOracle, htok, hdial, hl1c, hconn2, hconn1, hbind,
      hprice, hpricer, hc2, hc1, hx]
  · simp [NewGasPriceOracle, NewGasPriceOracle.newGasPriceOracleRest,
      htok, hdial, hl1c, hconn2, hconn1, hbind, hprice, hpricer, hc2, hc1,
      hcfg2, hy]
  · simp [NewGasPriceOracle, NewGasPriceOracle.newGasPriceOracleRest,
      NewGasPriceOracle.newGasPriceOracleFinish, ensure, signerAddress,
      htok, hdial, hl1c, hconn2, hconn1, hbind, hprice, hpricer, hc2, hc1,
      hcfg2, hcfg1, hhsm, hkey, htip, hwrap, hupd, howner, hmatch]

/-- Witness for `chain_id_check`: live ids (1, 5003), misconfigured values
9 and 8, and an otherwise all-successful environment. -/
theorem chain_id_check_witness :
    ((9 : Nat) ≠ 5003 ∧ (8 : Nat) ≠ 1) ∧
    (NewGasPriceOracle env0 { cfg0 with l2ChainID := some 9 } =
        .error (.wrongChainID 2 9 5003) ∧
      NewGasPriceOracle env0 { cfg0 with l1ChainID := some 8 } =
        .error (.wrongChainID 1 8 1) ∧
      ∃ gpo, NewGasPriceOracle env0 cfg0 = .ok gpo ∧
        gpo.config.l2ChainID = some 5003 ∧ gpo.config.l1ChainID = some 1) :=
  ⟨⟨by decide, by decide⟩,
    chain_id_check env0 cfg0 1000 1 5003 7 5 5 9 8 rfl rfl rfl
      (by simp [ensureConnection, ensureConnectionGo, env0])
      (by simp [ensureConnection, ensureConnectionGo, env0])
      rfl rfl rfl rfl rfl rfl rfl rfl rfl rfl rfl rfl rfl rfl
      (by decide) (by decide)⟩

/-- Claim C10: the error returned by `bindings.NewBVMEigenDataLayrFee` at
line 230 is never checked (the next statement shadows `err`), so a failing
DA-fee binding construction does not abort `NewGasPriceOracle`: with every
other step succeeding, the constructor still returns an oracle, whose
`daBackend` holds the invalid (nil) binding. -/
theorem da_fee_binding_error_discarded
    (env : Env) (cfg : Config) (e : GoErr) (p c1 c2 tip k owner : Nat)
    (hda : env.newDaFeeBinding = .error e)
    (htok : env.tokenPricerOk = true)
    (hdial : env.dialL2 = .ok ())
    (hl1c : env.newL1Client = .ok ())
    (hconn2 : ensureConnection env.l2Conn = .ok ())
    (hconn1 : ensureConnection env.l1Conn = .ok ())
    (hbind : env.newGpoBinding = .ok ())
    (hprice : env.contractGasPrice = .ok p)
    (hpricer : env.newGasPricer = .ok ())
    (hc2 : env.l2ChainID = .ok c2)
    (hc1 : env.l1ChainID = .ok c1)
    (hcfg2 : cfg.l2ChainID = some c2)
    (hcfg1 : cfg.l1ChainID = some c1)
    (hhsm : cfg.enableHsm = false)
    (hkey : cfg.privateKey = some k)
    (htip : env.l2TipNumber = .ok tip)
    (hwrap : env.wrapUpdateL2GasPrice = .ok ())
    (hupd : env.newGasPriceUpdater = .ok ())
    (howner : env.contractOwner = .ok owner)
    (hmatch : pubkeyToAddress k = owner) :
    ∃ gpo, NewGasPriceOracle env cfg = .ok gpo ∧ gpo.daBackend = none := by
  simp [NewGasPriceOracle, NewGasPriceOracle.newGasPriceOracleRest,
    NewGasPriceOracle.newGasPriceOracleFinish, ensure, signerAddress,
    Except.toOption, hda, htok, hdial, hl1c, hconn2, hconn1, hbind, hprice,
    hpricer, hc2, hc1, hcfg2, hcfg1, hhsm, hkey, htip, hwrap, hupd, howner,
    hmatch]

/-- Witness for `da_fee_binding_error_discarded` on the environment whose
DA-fee binding constructor fails while everything else succeeds. -/
theorem da_fee_binding_error_discarded_witness :
    envBadDa.newDaFeeBinding = .error (.external 3) ∧
    ∃ gpo, NewGasPriceOracle envBadDa cfgConfigured = .ok gpo ∧
      gpo.daBackend = none :=
  ⟨rfl,
    da_fee_binding_error_discarded envBadDa cfgConfigured (.external 3)
      1000 1 5003 7 5 5 rfl rfl rfl rfl
      (by simp [ensureConnection, ensureConnectionGo, envBadDa, env0])
      (by simp [ensureConnection, ensureConnectionGo, envBadDa, env0])
      rfl rfl rfl rfl rfl rfl rfl rfl rfl rfl rfl rfl rfl rfl⟩

end Mantle
